import Mathlib

/-!
Verification development for the TLS record-layer and key-isolation
subsystem of ocserv (`src/tlslib.c`).

The C code is shallowly embedded: the gnutls engine's behaviour is
represented by explicit traces/environments of primitive results, and
each C function becomes a Lean function over those.  Machine integers
are modelled as `Int`/`Nat` (byte truncation is written explicitly as
`% 256` where the C code narrows to `uint8_t`).
-/

/-! ## gnutls result codes (from gnutls_int.h / gnutls.h) -/

def GNUTLS_E_AGAIN : Int := -28
def GNUTLS_E_INTERRUPTED : Int := -52
def GNUTLS_E_INTERNAL_ERROR : Int := -59
def GNUTLS_E_CERTIFICATE_ERROR : Int := -43

/-! ## Transport I/O adapter: `tls_send` and `tls_send_nb`

`gnutls_record_send` is modelled by a trace: the list of results the
engine returns on the successive invocations of the loop.  A result
`r > 0` means `r` bytes were accepted, `r = 0` means nothing was
accepted, `r < 0` is an error code.  The loop keeps the remaining byte
count `left` exactly as the C code does (`left -= ret` only for
`ret > 0`); if the trace runs out while the loop would still spin, the
model returns `none` (the C code would keep calling the engine). -/

/-- A result on which `tls_send` stops with an error: negative and
neither "would block" (`GNUTLS_E_AGAIN`) nor "interrupted"
(`GNUTLS_E_INTERRUPTED`).  From the condition at src/tlslib.c:54. -/
def isFatalSend (r : Int) : Prop :=
  r < 0 ∧ r ≠ GNUTLS_E_AGAIN ∧ r ≠ GNUTLS_E_INTERRUPTED

instance (r : Int) : Decidable (isFatalSend r) :=
  inferInstanceAs (Decidable (r < 0 ∧ r ≠ GNUTLS_E_AGAIN ∧ r ≠ GNUTLS_E_INTERRUPTED))

/-- The `while (left > 0)` loop of `tls_send` (src/tlslib.c:52-62). -/
def tls_sendLoop (ds : Nat) : List Int → Int → Option Int
  | [], left => if left ≤ 0 then some (ds : Int) else none
  | r :: rest, left =>
    if left ≤ 0 then some (ds : Int)
    else if isFatalSend r then some r
    else if 0 < r then tls_sendLoop ds rest (left - r)
    else tls_sendLoop ds rest left

/-- `tls_send` (src/tlslib.c:45-65): `left` starts at `data_size`, and on
loop exit the function returns `data_size`. -/
def tls_send (results : List Int) (data_size : Nat) : Option Int :=
  tls_sendLoop data_size results (data_size : Int)

/-- A result on which `tls_send_nb` leaves the loop with an error branch:
negative and not "interrupted" (src/tlslib.c:77). -/
def isStopNb (r : Int) : Prop := r < 0 ∧ r ≠ GNUTLS_E_INTERRUPTED

instance (r : Int) : Decidable (isStopNb r) :=
  inferInstanceAs (Decidable (r < 0 ∧ r ≠ GNUTLS_E_INTERRUPTED))

/-- The `while (left > 0)` loop of `tls_send_nb` (src/tlslib.c:75-87):
like `tls_send`, except that on `GNUTLS_E_AGAIN` it returns `data_size`
as if everything had been accepted. -/
def tls_send_nbLoop (ds : Nat) : List Int → Int → Option Int
  | [], left => if left ≤ 0 then some (ds : Int) else none
  | r :: rest, left =>
    if left ≤ 0 then some (ds : Int)
    else if isStopNb r then
      if r = GNUTLS_E_AGAIN then some (ds : Int) else some r
    else if 0 < r then tls_send_nbLoop ds rest (left - r)
    else tls_send_nbLoop ds rest left

/-- `tls_send_nb` (src/tlslib.c:68-90). -/
def tls_send_nb (results : List Int) (data_size : Nat) : Option Int :=
  tls_send_nbLoop data_size results (data_size : Int)

/-- Sum of the positive entries of a trace: the total number of bytes
the engine actually accepted across those calls. -/
def sumPos : List Int → Int
  | [] => 0
  | r :: rest => (if 0 < r then r else 0) + sumPos rest

/-! ## `tls_printf` (src/tlslib.c:148-162)

`char buf[1024]; s = vsnprintf(buf, 1023, fmt, args); return
tls_send(session, buf, s);`.  `vsnprintf(buf, n, ...)` stores at most
`n - 1` characters (plus a NUL) but returns the number of characters
the full rendering would have needed.  We model both quantities as
functions of the rendered length of `fmt`/`args`. -/

/-- Size of the scratch buffer `buf` in `tls_printf`. -/
def tls_printf_buf_size : Nat := 1024

/-- Bytes of the rendering that `vsnprintf(buf, 1023, ...)` actually
stores in `buf` (excluding the NUL terminator): at most 1022. -/
def vsnprintf_stored (renderedLen : Nat) : Nat := min renderedLen 1022

/-- Return value of `vsnprintf`: the length of the full (untruncated)
rendering, regardless of how much fit. -/
def vsnprintf_ret (renderedLen : Nat) : Nat := renderedLen

/-- The byte count `s` that `tls_printf` forwards to `tls_send`
(src/tlslib.c:158-160): the raw `vsnprintf` return value. -/
def tls_printf_forwarded (renderedLen : Nat) : Nat := vsnprintf_ret renderedLen

/-! ## `tls_has_session_cert` (src/tlslib.c:129-146) -/

/-- The per-connection state consulted by `tls_has_session_cert`:
`ws->cert_auth_ok`, `ws->config->cisco_client_compat` (as a flag), and
whether `gnutls_certificate_get_peers` would return a non-NULL list. -/
structure WorkerSt where
  cert_auth_ok : Bool
  cisco_client_compat : Bool
  peer_certs_present : Bool

/-- `tls_has_session_cert`; the second component records whether the
engine (`gnutls_certificate_get_peers`) was consulted. -/
def tls_has_session_cert (ws : WorkerSt) : Nat × Bool :=
  if ws.cert_auth_ok then (1, false)
  else if ws.cisco_client_compat = false then (0, false)
  else if ws.peer_certs_present then (1, true)
  else (0, true)

/-! ## Session resumption cache: `tls_cache_deinit` (src/tlslib.c:198-219)

Entries are `tls_cache_st` records; the iteration over the hash table
is modelled as a list traversal, and the memory-visible actions
(`safe_memset`, `talloc_free`, `htable_clear`, freeing the database)
are recorded as an ordered event trace.  Each `free` event carries the
entry's state at the moment its storage is released. -/

structure TlsCacheEntry where
  session_id : List Nat
  session_id_size : Nat
  session_data : List Nat
  session_data_size : Nat
deriving DecidableEq

/-- `safe_memset(p, 0, n)` on a buffer modelled as a byte list: the
first `n` bytes become `0`, the rest are untouched. -/
def memset0 (l : List Nat) (n : Nat) : List Nat :=
  (l.take n).map (fun _ => 0) ++ l.drop n

/-- The mutation applied at src/tlslib.c:206-208 to an entry with
`session_data_size > 0`: zeroise `session_data_size` bytes of
`session_data`, then reset both recorded sizes to `0`. -/
def scrubEntry (e : TlsCacheEntry) : TlsCacheEntry :=
  { e with session_data := memset0 e.session_data e.session_data_size
         , session_data_size := 0
         , session_id_size := 0 }

inductive CacheEvent where
  /-- `safe_memset` plus size resets were applied; payload is the entry state afterwards. -/
  | scrub : TlsCacheEntry → CacheEvent
  /-- `talloc_free(cache)`; payload is the entry state at release. -/
  | free : TlsCacheEntry → CacheEvent
  /-- `htable_clear(&db->ht)`. -/
  | clearTable : CacheEvent
  /-- `talloc_free(db)`. -/
  | freeDb : CacheEvent
deriving DecidableEq

/-- One iteration of the `while (cache != NULL)` loop
(src/tlslib.c:204-213): scrub first when the data length is positive,
then release the entry. -/
def deinitEntry (e : TlsCacheEntry) : List CacheEvent :=
  if 0 < e.session_data_size then
    [CacheEvent.scrub (scrubEntry e), CacheEvent.free (scrubEntry e)]
  else [CacheEvent.free e]

/-- `tls_cache_deinit` as the event trace it produces: every entry is
visited in order, then the table is cleared and the database freed
(src/tlslib.c:214-216). -/
def tls_cache_deinit (entries : List TlsCacheEntry) : List CacheEvent :=
  entries.flatMap deinitEntry ++ [CacheEvent.clearTable, CacheEvent.freeDb]

/-! ## Verification policy gate: `verify_certificate_cb` (src/tlslib.c:239-293) -/

/-- Engine-side inputs of one run of the callback: the return value of
`gnutls_certificate_verify_peers2`, the `status` bitmask it fills in
(meaningful when that return is non-negative), the return value of
`gnutls_certificate_verification_status_print`, and the
`cisco_client_compat` configuration flag. -/
structure VerifyEnv where
  verifyRet : Int
  status : Nat
  printRet : Int
  compat : Bool

/-- Observable outcome of the callback: the final `ws->cert_auth_ok`,
the callback's return value, and whether the decoded verification
failure reason was logged (the `oclog` at src/tlslib.c:275). -/
structure VerifyOutcome where
  cert_auth_ok : Bool
  ret : Int
  loggedReason : Bool
deriving DecidableEq

/-- `verify_certificate_cb`.  `isDtls` models `session == ws->dtls_session`
(src/tlslib.c:251): the DTLS sub-channel returns 0 before touching
`cert_auth_ok` (whose prior value is `prior`).  On the primary channel
`cert_auth_ok` is first cleared, and every failure goes through the
`fail:` label, whose result depends only on the compatibility flag
(src/tlslib.c:287-292). -/
def verify_certificate_cb (isDtls : Bool) (prior : Bool) (env : VerifyEnv) :
    VerifyOutcome :=
  if isDtls then ⟨prior, 0, false⟩
  else
    let failRet : Int := if env.compat then 0 else GNUTLS_E_CERTIFICATE_ERROR
    if env.verifyRet < 0 then ⟨false, failRet, false⟩
    else if env.status ≠ 0 then
      if env.printRet < 0 then ⟨false, failRet, false⟩
      else ⟨false, failRet, true⟩
    else ⟨true, 0, false⟩

/-! ## Key delegation client: `key_cb_common_func` (src/tlslib.c:393-465)

The system-call outcomes are an environment; the function's observable
result is the bytes handed to `writev` (when it is reached and
succeeds), the return code toward the engine, and the output buffer
the engine receives (`none` when `output->data` was freed on the error
path, or never allocated). -/

structure DelegEnv where
  /-- `socket(AF_UNIX, SOCK_STREAM, 0) != -1`. -/
  socket_ok : Bool
  /-- `connect(...) != -1`. -/
  connect_ok : Bool
  /-- `writev(...) != -1`. -/
  writev_ok : Bool
  /-- return value of `recv(sd, &length, 2, 0)`. -/
  recvLen_ret : Int
  /-- the 16-bit length field read (meaningful when `recvLen_ret = 2`). -/
  lengthField : Nat
  /-- `gnutls_malloc(output->size) != NULL`. -/
  malloc_ok : Bool
  /-- return value of `recv(sd, output->data, output->size, 0)`. -/
  recvBody_ret : Int

structure DelegOutcome where
  /-- the request bytes submitted to the custodian channel, when the
  `writev` call was reached and succeeded. -/
  wire : Option (List Nat)
  /-- return code toward the engine. -/
  ret : Int
  /-- size of the output buffer handed back to the engine (`none` when
  the buffer was released, or never allocated). -/
  output : Option Nat
deriving DecidableEq

/-- `key_cb_common_func` with key index `idx`, operand bytes `raw` and
operation tag `ty`.  The request is the 2-byte header
`[idx as uint8_t, ty as uint8_t]` immediately followed by `raw`
(src/tlslib.c:419-427); every failure path runs `goto error`, which
frees `output->data` and returns `GNUTLS_E_INTERNAL_ERROR`
(src/tlslib.c:460-463).  A body `recv` returning `ret > 0` is accepted
and `output->size` is reduced to `ret` (src/tlslib.c:448-455). -/
def key_cb_common_func (env : DelegEnv) (idx : Nat) (raw : List Nat) (ty : Nat) :
    DelegOutcome :=
  if env.socket_ok = false then ⟨none, GNUTLS_E_INTERNAL_ERROR, none⟩
  else if env.connect_ok = false then ⟨none, GNUTLS_E_INTERNAL_ERROR, none⟩
  else
    let wireBytes := idx % 256 :: ty % 256 :: raw
    if env.writev_ok = false then ⟨none, GNUTLS_E_INTERNAL_ERROR, none⟩
    else if env.recvLen_ret < 2 then ⟨some wireBytes, GNUTLS_E_INTERNAL_ERROR, none⟩
    else if env.malloc_ok = false then ⟨some wireBytes, GNUTLS_E_INTERNAL_ERROR, none⟩
    else if env.recvBody_ret ≤ 0 then ⟨some wireBytes, GNUTLS_E_INTERNAL_ERROR, none⟩
    else ⟨some wireBytes, 0, some env.recvBody_ret.toNat⟩

/-- `key_cb_sign_func` (src/tlslib.c:467-472): delegates with operation
tag `'S'` (ASCII 83). -/
def key_cb_sign_func (env : DelegEnv) (idx : Nat) (raw : List Nat) : DelegOutcome :=
  key_cb_common_func env idx raw 83

/-- `key_cb_decrypt_func` (src/tlslib.c:474-478): operation tag `'D'`
(ASCII 68). -/
def key_cb_decrypt_func (env : DelegEnv) (idx : Nat) (raw : List Nat) : DelegOutcome :=
  key_cb_common_func env idx raw 68

/-! ## Overhead accountant: `tls_get_overhead` (src/tlslib.c:715-763)

We model the pre-3.2.7 fallback branch, which is the accounting the
spec describes (the other branch delegates to
`gnutls_est_record_overhead_size`, outside this repository).  The enum
carries both the ciphers named in the `switch` and some gnutls ciphers
of that era that the `switch` does not name, so the default branch can
be exercised. -/

inductive GVersion where
  | TLS1_0 | TLS1_1 | TLS1_2 | DTLS0_9 | DTLS1_0 | DTLS1_2
deriving DecidableEq

inductive GCipher where
  | TDES_CBC          -- GNUTLS_CIPHER_3DES_CBC
  | AES_128_CBC | AES_256_CBC | AES_192_CBC
  | CAMELLIA_128_CBC | CAMELLIA_256_CBC | CAMELLIA_192_CBC
  | AES_128_GCM | AES_256_GCM
  | CAMELLIA_128_GCM  -- not named in the switch
  | SEED_CBC          -- not named in the switch
  | ARCFOUR_128       -- stream cipher, not named in the switch
  | SALSA20_256       -- stream cipher, not named in the switch
  | NULL_CIPHER       -- GNUTLS_CIPHER_NULL, not named in the switch
deriving DecidableEq

inductive GMac where
  | MD5 | SHA1 | SHA256 | AEAD | NULL_MAC
deriving DecidableEq

/-- `gnutls_cipher_get_block_size`: the primitive's block size (1 for
stream ciphers, as gnutls reports). -/
def gnutls_cipher_get_block_size : GCipher → Nat
  | GCipher.TDES_CBC => 8
  | GCipher.AES_128_CBC | GCipher.AES_256_CBC | GCipher.AES_192_CBC => 16
  | GCipher.CAMELLIA_128_CBC | GCipher.CAMELLIA_256_CBC
  | GCipher.CAMELLIA_192_CBC => 16
  | GCipher.AES_128_GCM | GCipher.AES_256_GCM | GCipher.CAMELLIA_128_GCM => 16
  | GCipher.SEED_CBC => 16
  | GCipher.ARCFOUR_128 | GCipher.SALSA20_256 | GCipher.NULL_CIPHER => 1

/-- `gnutls_hmac_get_len`: the MAC output length (0 for the AEAD
pseudo-MAC and the null MAC). -/
def gnutls_hmac_get_len : GMac → Nat
  | GMac.MD5 => 16
  | GMac.SHA1 => 20
  | GMac.SHA256 => 32
  | GMac.AEAD => 0
  | GMac.NULL_MAC => 0

/-- The first `switch (version)` of `tls_get_overhead`
(src/tlslib.c:724-735): 13 bytes of record header for the datagram
versions, 5 for everything else. -/
def versionHeader : GVersion → Nat
  | GVersion.DTLS0_9 | GVersion.DTLS1_0 | GVersion.DTLS1_2 => 13
  | _ => 5

/-- `tls_get_overhead` (fallback branch, src/tlslib.c:720-761). -/
def tls_get_overhead (v : GVersion) (c : GCipher) (m : GMac) : Nat :=
  let block_size := gnutls_cipher_get_block_size c
  let overhead := versionHeader v
  let overhead := overhead + (match c with
    | GCipher.TDES_CBC
    | GCipher.AES_128_CBC | GCipher.AES_256_CBC
    | GCipher.CAMELLIA_128_CBC | GCipher.CAMELLIA_256_CBC
    | GCipher.AES_192_CBC | GCipher.CAMELLIA_192_CBC =>
        block_size + block_size  -- max pad + explicit IV
    | GCipher.AES_128_GCM | GCipher.AES_256_GCM =>
        8 + block_size           -- explicit nonce + tag size
    | _ => 0)
  let t := gnutls_hmac_get_len m
  if 0 < t then overhead + t else overhead

/-- Whether a cipher is named in the `switch (cipher)` of
`tls_get_overhead` (src/tlslib.c:737-755); the rest fall through the
`default` branch, which adds nothing for the cipher. -/
def cipherHandled : GCipher → Bool
  | GCipher.TDES_CBC
  | GCipher.AES_128_CBC | GCipher.AES_256_CBC
  | GCipher.CAMELLIA_128_CBC | GCipher.CAMELLIA_256_CBC
  | GCipher.AES_192_CBC | GCipher.CAMELLIA_192_CBC
  | GCipher.AES_128_GCM | GCipher.AES_256_GCM => true
  | _ => false

/-- Per-record expansion characteristics of each cipher, as standard
TLS facts: CBC ciphers are block ciphers (explicit IV + padding), the
GCM ciphers are AEAD with an 8-byte explicit nonce and a 16-byte tag,
stream/null ciphers add nothing of their own. -/
structure CipherTruth where
  isBlock : Bool
  blockSize : Nat
  isAead : Bool
  nonceLen : Nat
  tagLen : Nat
deriving DecidableEq

def cipherTruth : GCipher → CipherTruth
  | GCipher.TDES_CBC => ⟨true, 8, false, 0, 0⟩
  | GCipher.AES_128_CBC | GCipher.AES_256_CBC | GCipher.AES_192_CBC =>
      ⟨true, 16, false, 0, 0⟩
  | GCipher.CAMELLIA_128_CBC | GCipher.CAMELLIA_256_CBC
  | GCipher.CAMELLIA_192_CBC => ⟨true, 16, false, 0, 0⟩
  | GCipher.SEED_CBC => ⟨true, 16, false, 0, 0⟩
  | GCipher.AES_128_GCM | GCipher.AES_256_GCM | GCipher.CAMELLIA_128_GCM =>
      ⟨false, 16, true, 8, 16⟩
  | GCipher.ARCFOUR_128 | GCipher.SALSA20_256 | GCipher.NULL_CIPHER =>
      ⟨false, 1, false, 0, 0⟩

/-- The true per-record overhead of a version/cipher/MAC combination,
written from the spec's accounting (spec.md section 4.4): header, plus
one block of maximum padding and one block of explicit IV for block
ciphers, plus explicit nonce and authentication tag for AEAD ciphers
(with no separate MAC length), plus the MAC output length otherwise. -/
def specTrueOverhead (v : GVersion) (c : GCipher) (m : GMac) : Nat :=
  let ct := cipherTruth c
  versionHeader v
    + (if ct.isBlock then ct.blockSize + ct.blockSize else 0)
    + (if ct.isAead then ct.nonceLen + ct.tagLen else 0)
    + (if ct.isAead then 0 else gnutls_hmac_get_len m)

/-! ## Helper lemmas -/

lemma sumPos_nonneg (l : List Int) : 0 ≤ sumPos l := by
  induction l with
  | nil => simp [sumPos]
  | cons r rest ih => simp only [sumPos]; split <;> omega

lemma sendLoop_success (ds : Nat) :
    ∀ (rs : List Int) (left : Int), (∀ x ∈ rs, ¬ isFatalSend x) →
      left ≤ sumPos rs → tls_sendLoop ds rs left = some (ds : Int) := by
  intro rs
  induction rs with
  | nil =>
    intro left _ hle
    have h0 : left ≤ 0 := by simpa [sumPos] using hle
    simp [tls_sendLoop, h0]
  | cons r rest ih =>
    intro left hall hle
    by_cases h0 : left ≤ 0
    · simp [tls_sendLoop, h0]
    · have hnf : ¬ isFatalSend r := hall r (by simp)
      have hrest : ∀ x ∈ rest, ¬ isFatalSend x := fun x hx => hall x (by simp [hx])
      simp only [tls_sendLoop, if_neg h0, if_neg hnf]
      by_cases hr : 0 < r
      · rw [if_pos hr]
        apply ih _ hrest
        simp only [sumPos, if_pos hr] at hle
        omega
      · rw [if_neg hr]
        apply ih _ hrest
        simp only [sumPos, if_neg hr] at hle
        omega

lemma sendLoop_fatal (ds : Nat) (r : Int) (post : List Int) (hr : isFatalSend r) :
    ∀ (pre : List Int) (left : Int), (∀ x ∈ pre, ¬ isFatalSend x) →
      sumPos pre < left → tls_sendLoop ds (pre ++ r :: post) left = some r := by
  intro pre
  induction pre with
  | nil =>
    intro left _ hlt
    have h0 : ¬ left ≤ 0 := by simp only [sumPos] at hlt; omega
    simp [tls_sendLoop, h0, hr]
  | cons x pre' ih =>
    intro left hall hlt
    have hx : ¬ isFatalSend x := hall x (by simp)
    have hpre : ∀ y ∈ pre', ¬ isFatalSend y := fun y hy => hall y (by simp [hy])
    have hnn : (0 : Int) ≤ sumPos pre' := sumPos_nonneg pre'
    have h0 : ¬ left ≤ 0 := by simp only [sumPos] at hlt; split at hlt <;> omega
    simp only [List.cons_append, tls_sendLoop, if_neg h0, if_neg hx]
    by_cases hxp : 0 < x
    · rw [if_pos hxp]
      apply ih _ hpre
      simp only [sumPos, if_pos hxp] at hlt
      omega
    · rw [if_neg hxp]
      apply ih _ hpre
      simp only [sumPos, if_neg hxp] at hlt
      omega

lemma nbLoop_success (ds : Nat) :
    ∀ (rs : List Int) (left : Int), (∀ x ∈ rs, ¬ isStopNb x) →
      left ≤ sumPos rs → tls_send_nbLoop ds rs left = some (ds : Int) := by
  intro rs
  induction rs with
  | nil =>
    intro left _ hle
    have h0 : left ≤ 0 := by simpa [sumPos] using hle
    simp [tls_send_nbLoop, h0]
  | cons r rest ih =>
    intro left hall hle
    by_cases h0 : left ≤ 0
    · simp [tls_send_nbLoop, h0]
    · have hnf : ¬ isStopNb r := hall r (by simp)
      have hrest : ∀ x ∈ rest, ¬ isStopNb x := fun x hx => hall x (by simp [hx])
      simp only [tls_send_nbLoop, if_neg h0, if_neg hnf]
      by_cases hr : 0 < r
      · rw [if_pos hr]
        apply ih _ hrest
        simp only [sumPos, if_pos hr] at hle
        omega
      · rw [if_neg hr]
        apply ih _ hrest
        simp only [sumPos, if_neg hr] at hle
        omega

lemma nbLoop_stop (ds : Nat) (r : Int) (post : List Int) (hr : isStopNb r) :
    ∀ (pre : List Int) (left : Int), (∀ x ∈ pre, ¬ isStopNb x) →
      sumPos pre < left →
      tls_send_nbLoop ds (pre ++ r :: post) left =
        (if r = GNUTLS_E_AGAIN then some (ds : Int) else some r) := by
  intro pre
  induction pre with
  | nil =>
    intro left _ hlt
    have h0 : ¬ left ≤ 0 := by simp only [sumPos] at hlt; omega
    simp [tls_send_nbLoop, h0, hr]
  | cons x pre' ih =>
    intro left hall hlt
    have hx : ¬ isStopNb x := hall x (by simp)
    have hpre : ∀ y ∈ pre', ¬ isStopNb y := fun y hy => hall y (by simp [hy])
    have hnn : (0 : Int) ≤ sumPos pre' := sumPos_nonneg pre'
    have h0 : ¬ left ≤ 0 := by simp only [sumPos] at hlt; split at hlt <;> omega
    simp only [List.cons_append, tls_send_nbLoop, if_neg h0, if_neg hx]
    by_cases hxp : 0 < x
    · rw [if_pos hxp]
      apply ih _ hpre
      simp only [sumPos, if_pos hxp] at hlt
      omega
    · rw [if_neg hxp]
      apply ih _ hpre
      simp only [sumPos, if_neg hxp] at hlt
      omega

lemma memset0_take_zero (l : List Nat) (n : Nat) :
    ∀ b ∈ (memset0 l n).take n, b = 0 := by
  intro b hb
  unfold memset0 at hb
  rcases le_or_lt n l.length with h | h
  · have hA : ((l.take n).map (fun _ => (0 : Nat))).length = n := by
      rw [List.length_map, List.length_take]
      exact min_eq_left h
    rw [List.take_left' hA] at hb
    rcases List.mem_map.1 hb with ⟨a, -, rfl⟩
    rfl
  · rw [List.drop_eq_nil_of_le h.le, List.append_nil] at hb
    rcases List.mem_map.1 (List.mem_of_mem_take hb) with ⟨a, -, rfl⟩
    rfl

/-! ## Claim theorems -/

/-- Claim C4: for every payload of size ≥ 0, `tls_send` retries exactly
on "would block" and "interrupted" until all bytes are accepted,
returning the full payload size; on any other negative engine result
it returns that result immediately and unmodified, whatever the engine
would have answered afterwards. -/
theorem tls_send_correct (ds : Nat) :
    (∀ results, (∀ x ∈ results, ¬ isFatalSend x) → (ds : Int) ≤ sumPos results →
        tls_send results ds = some (ds : Int)) ∧
    (∀ pre r post, (∀ x ∈ pre, ¬ isFatalSend x) → isFatalSend r →
        sumPos pre < (ds : Int) → tls_send (pre ++ r :: post) ds = some r) :=
  ⟨fun results h hle => sendLoop_success ds results (ds : Int) h hle,
   fun pre r post hpre hr hlt => sendLoop_fatal ds r post hr pre (ds : Int) hpre hlt⟩

/-- Witness for C4: a trace of retryable results and partial sends adds
up to the full 5-byte payload; a fatal result `-50` after a partial
send of 3 bytes is returned unmodified. -/
theorem tls_send_correct_witness :
    tls_send [GNUTLS_E_AGAIN, 3, GNUTLS_E_INTERRUPTED, 0, 2] 5 = some 5 ∧
    tls_send ([GNUTLS_E_AGAIN, 3] ++ (-50) :: [7]) 5 = some (-50) :=
  ⟨(tls_send_correct 5).1 [GNUTLS_E_AGAIN, 3, GNUTLS_E_INTERRUPTED, 0, 2]
      (by decide) (by decide),
   (tls_send_correct 5).2 [GNUTLS_E_AGAIN, 3] (-50) [7] (by decide) (by decide) (by decide)⟩

/-- Claim C9: `tls_send_nb` follows the retry policy of `tls_send`
except that a "would block" result makes it return the full payload
size even when fewer bytes actually reached the transport
(`sumPos pre < ds`); it never retries past a "would block" result
(the conclusion holds for every continuation `post`). -/
theorem tls_send_nb_correct (ds : Nat) :
    (∀ results, (∀ x ∈ results, ¬ isStopNb x) → (ds : Int) ≤ sumPos results →
        tls_send_nb results ds = some (ds : Int)) ∧
    (∀ pre post, (∀ x ∈ pre, ¬ isStopNb x) → sumPos pre < (ds : Int) →
        tls_send_nb (pre ++ GNUTLS_E_AGAIN :: post) ds = some (ds : Int)) ∧
    (∀ pre r post, (∀ x ∈ pre, ¬ isStopNb x) → isFatalSend r →
        sumPos pre < (ds : Int) → tls_send_nb (pre ++ r :: post) ds = some r) := by
  refine ⟨fun results h hle => nbLoop_success ds results (ds : Int) h hle, ?_, ?_⟩
  · intro pre post hpre hlt
    have h := nbLoop_stop ds GNUTLS_E_AGAIN post (by decide) pre (ds : Int) hpre hlt
    simpa using h
  · intro pre r post hpre hr hlt
    have hstop : isStopNb r := ⟨hr.1, hr.2.2⟩
    have h := nbLoop_stop ds r post hstop pre (ds : Int) hpre hlt
    rwa [if_neg hr.2.1] at h

/-- Witness for C9: after a partial send of 3 of 5 bytes, a "would
block" result makes `tls_send_nb` report the full 5 bytes, regardless
of what would follow; a fatal `-10` is still returned unmodified. -/
theorem tls_send_nb_correct_witness :
    tls_send_nb [GNUTLS_E_INTERRUPTED, 2, 3] 5 = some 5 ∧
    tls_send_nb ([3] ++ GNUTLS_E_AGAIN :: [99]) 5 = some 5 ∧
    tls_send_nb ([3] ++ (-10) :: [99]) 5 = some (-10) :=
  ⟨(tls_send_nb_correct 5).1 [GNUTLS_E_INTERRUPTED, 2, 3] (by decide) (by decide),
   (tls_send_nb_correct 5).2.1 [3] [99] (by decide) (by decide),
   (tls_send_nb_correct 5).2.2 [3] (-10) [99] (by decide) (by decide) (by decide)⟩

/-- Claim C1: `tls_cache_deinit` visits every live entry — the trace
ends with clearing the table and freeing the database, preceded only
by per-entry scrub/free events; every entry with zero data length is
simply released; and every entry with positive data length is released
only in scrubbed form, its scrub event immediately preceding its
release, with the recorded length reset to zero and the data bytes
overwritten with zeros. -/
theorem tls_cache_deinit_scrubs (entries : List TlsCacheEntry) :
    (∃ pre, tls_cache_deinit entries = pre ++ [CacheEvent.clearTable, CacheEvent.freeDb] ∧
        ∀ ev ∈ pre, (∃ e, ev = CacheEvent.scrub e) ∨ ∃ e, ev = CacheEvent.free e) ∧
    (∀ e ∈ entries, e.session_data_size = 0 →
        CacheEvent.free e ∈ tls_cache_deinit entries) ∧
    (∀ e ∈ entries, 0 < e.session_data_size →
        ∃ l1 l2, tls_cache_deinit entries =
            l1 ++ CacheEvent.scrub (scrubEntry e) ::
              CacheEvent.free (scrubEntry e) :: l2 ∧
          (scrubEntry e).session_data_size = 0 ∧
          ∀ b ∈ (scrubEntry e).session_data.take e.session_data_size, b = 0) := by
  refine ⟨⟨entries.flatMap deinitEntry, rfl, ?_⟩, ?_, ?_⟩
  · intro ev hev
    rcases List.mem_flatMap.1 hev with ⟨e, -, he⟩
    unfold deinitEntry at he
    split at he
    · simp only [List.mem_cons, List.not_mem_nil, or_false] at he
      rcases he with he | he
      · exact Or.inl ⟨scrubEntry e, he⟩
      · exact Or.inr ⟨scrubEntry e, he⟩
    · simp only [List.mem_cons, List.not_mem_nil, or_false] at he
      exact Or.inr ⟨e, he⟩
  · intro e he hz
    apply List.mem_append_left
    apply List.mem_flatMap.2 ⟨e, he, ?_⟩
    unfold deinitEntry
    rw [if_neg (by omega)]
    simp
  · intro e he hpos
    rcases List.append_of_mem he with ⟨s, t, rfl⟩
    refine ⟨s.flatMap deinitEntry,
      t.flatMap deinitEntry ++ [CacheEvent.clearTable, CacheEvent.freeDb], ?_, rfl, ?_⟩
    · unfold tls_cache_deinit
      rw [List.flatMap_append, List.flatMap_cons]
      unfold deinitEntry
      rw [if_pos hpos]
      simp [List.append_assoc]
    · exact memset0_take_zero e.session_data e.session_data_size

/-- Witness for C1 at a one-entry database whose entry holds 3 bytes
of session data. -/
theorem tls_cache_deinit_scrubs_witness :
    ∃ l1 l2,
      tls_cache_deinit [⟨[1, 2], 2, [7, 8, 9], 3⟩] =
          l1 ++ CacheEvent.scrub (scrubEntry ⟨[1, 2], 2, [7, 8, 9], 3⟩) ::
            CacheEvent.free (scrubEntry ⟨[1, 2], 2, [7, 8, 9], 3⟩) :: l2 ∧
        (scrubEntry ⟨[1, 2], 2, [7, 8, 9], 3⟩).session_data_size = 0 ∧
        ∀ b ∈ (scrubEntry ⟨[1, 2], 2, [7, 8, 9], 3⟩).session_data.take 3, b = 0 :=
  (tls_cache_deinit_scrubs [⟨[1, 2], 2, [7, 8, 9], 3⟩]).2.2
    ⟨[1, 2], 2, [7, 8, 9], 3⟩ (by simp) (by decide)

/-- Claim C3 (code bug): `tls_printf` renders into the 1024-byte
scratch buffer with `vsnprintf(buf, 1023, ...)`, which truncates the
stored bytes to 1022, but it forwards the raw `vsnprintf` return value
— the untruncated rendered length — to `tls_send`.  For a rendering of
2000 bytes the forwarded count is 2000, exceeding both the stored
rendered bytes (1022) and the whole scratch buffer (1024), so bytes
outside the scratch buffer are sent. -/
theorem tls_printf_forwards_past_buffer :
    tls_printf_forwarded 2000 = 2000 ∧
    vsnprintf_stored 2000 = 1022 ∧
    vsnprintf_stored 2000 < tls_printf_forwarded 2000 ∧
    tls_printf_buf_size < tls_printf_forwarded 2000 := by
  decide

/-- Claim C2 counterexample: with the custodian advertising a length
field of 5 but the body `recv` returning only 3 bytes, the code does
NOT produce the generic internal-failure result — it returns success
(0) and hands the engine a partially filled 3-byte buffer
(src/tlslib.c:448-458 only treats `recv(...) <= 0` as failure). -/
theorem key_cb_shortBody_partial_returned :
    (⟨true, true, true, 2, 5, true, 3⟩ : DelegEnv).lengthField = 5 ∧
    (⟨true, true, true, 2, 5, true, 3⟩ : DelegEnv).recvBody_ret = 3 ∧
    (key_cb_common_func ⟨true, true, true, 2, 5, true, 3⟩ 0 [1, 2, 3] 83).ret ≠
      GNUTLS_E_INTERNAL_ERROR ∧
    (key_cb_common_func ⟨true, true, true, 2, 5, true, 3⟩ 0 [1, 2, 3] 83).output =
      some 3 := by
  decide

/-- Claim C2 amended: every failure at socket creation, connect, write,
a length-field read yielding fewer than 2 bytes, allocation, or a body
read returning zero or an error collapses to the single generic
internal-failure result with no buffer returned toward the engine (any
allocated output buffer having been released); but a body read that
returns more than zero yet fewer bytes than the advertised length
field is treated as success, and the partially filled buffer is
returned with its recorded size reduced to the bytes actually read. -/
theorem key_cb_common_func_error_policy (env : DelegEnv) (idx : Nat)
    (raw : List Nat) (ty : Nat) :
    ((env.socket_ok = false ∨ env.connect_ok = false ∨ env.writev_ok = false ∨
        env.recvLen_ret < 2 ∨ env.malloc_ok = false ∨ env.recvBody_ret ≤ 0) →
      (key_cb_common_func env idx raw ty).ret = GNUTLS_E_INTERNAL_ERROR ∧
      (key_cb_common_func env idx raw ty).output = none) ∧
    (env.socket_ok = true → env.connect_ok = true → env.writev_ok = true →
      2 ≤ env.recvLen_ret → env.malloc_ok = true → 0 < env.recvBody_ret →
      (key_cb_common_func env idx raw ty).ret = 0 ∧
      (key_cb_common_func env idx raw ty).output = some env.recvBody_ret.toNat) := by
  constructor
  · intro h
    unfold key_cb_common_func
    split_ifs with h1 h2 h3 h4 h5 h6
    · exact ⟨rfl, rfl⟩
    · exact ⟨rfl, rfl⟩
    · exact ⟨rfl, rfl⟩
    · exact ⟨rfl, rfl⟩
    · exact ⟨rfl, rfl⟩
    · exact ⟨rfl, rfl⟩
    · rcases h with h | h | h | h | h | h
      exacts [absurd h h1, absurd h h2, absurd h h3, absurd h h4, absurd h h5,
        absurd h h6]
  · intro hs hc hw hl hm hb
    unfold key_cb_common_func
    rw [if_neg (by simp [hs]), if_neg (by simp [hc]), if_neg (by simp [hw]),
      if_neg (by omega), if_neg (by simp [hm]), if_neg (by omega)]
    exact ⟨rfl, rfl⟩

/-- Witness for C2's amended statement: a 1-byte length read fails with
no buffer; a full 4-byte body read succeeds with a 4-byte buffer. -/
theorem key_cb_common_func_error_policy_witness :
    ((key_cb_common_func ⟨true, true, true, 1, 0, true, 4⟩ 0 [] 83).ret =
        GNUTLS_E_INTERNAL_ERROR ∧
      (key_cb_common_func ⟨true, true, true, 1, 0, true, 4⟩ 0 [] 83).output = none) ∧
    ((key_cb_common_func ⟨true, true, true, 2, 4, true, 4⟩ 0 [] 83).ret = 0 ∧
      (key_cb_common_func ⟨true, true, true, 2, 4, true, 4⟩ 0 [] 83).output = some 4) :=
  ⟨(key_cb_common_func_error_policy ⟨true, true, true, 1, 0, true, 4⟩ 0 [] 83).1
      (by decide),
   (key_cb_common_func_error_policy ⟨true, true, true, 2, 4, true, 4⟩ 0 [] 83).2
      rfl rfl rfl (by decide) rfl (by decide)⟩

/-- Claim C5 counterexample: Camellia-128-GCM (an AEAD cipher of the
gnutls era this fallback serves) is not named in the cipher switch, so
`tls_get_overhead` falls through the default branch and returns only
the 5-byte stream header, strictly below the true overhead
5 + 8 (nonce) + 16 (tag) = 29 of that combination. -/
theorem tls_get_overhead_underestimates_unknown_aead :
    cipherHandled GCipher.CAMELLIA_128_GCM = false ∧
    tls_get_overhead GVersion.TLS1_2 GCipher.CAMELLIA_128_GCM GMac.AEAD = 5 ∧
    specTrueOverhead GVersion.TLS1_2 GCipher.CAMELLIA_128_GCM GMac.AEAD = 29 ∧
    tls_get_overhead GVersion.TLS1_2 GCipher.CAMELLIA_128_GCM GMac.AEAD <
      specTrueOverhead GVersion.TLS1_2 GCipher.CAMELLIA_128_GCM GMac.AEAD := by
  decide

/-- Claim C5 amended: for a cipher the switch does not name, the
function returns the transport header plus the MAC output length; that
value is never smaller than the true overhead only when the unknown
cipher itself adds no per-record bytes (non-block, non-AEAD stream or
null ciphers); for unknown AEAD or block ciphers it is smaller. -/
theorem tls_get_overhead_default_lower_bound (v : GVersion) (c : GCipher) (m : GMac)
    (hc : cipherHandled c = false)
    (hb : (cipherTruth c).isBlock = false)
    (ha : (cipherTruth c).isAead = false) :
    specTrueOverhead v c m ≤ tls_get_overhead v c m := by
  revert hc hb ha
  cases v <;> cases c <;> cases m <;> decide

/-- Witness for C5's amended statement at an unknown stream cipher. -/
theorem tls_get_overhead_default_lower_bound_witness :
    specTrueOverhead GVersion.TLS1_0 GCipher.ARCFOUR_128 GMac.SHA1 ≤
      tls_get_overhead GVersion.TLS1_0 GCipher.ARCFOUR_128 GMac.SHA1 :=
  tls_get_overhead_default_lower_bound GVersion.TLS1_0 GCipher.ARCFOUR_128 GMac.SHA1
    rfl rfl rfl

/-- Claim C6: the overhead accounting — 5-byte stream header versus
13-byte datagram header; a block cipher adds one block of maximum
padding, one block of explicit IV and the MAC length (57 for stream +
16-byte block + 20-byte MAC, 65 for datagram + same); an AEAD cipher
adds an 8-byte explicit nonce plus the 16-byte tag and no separate MAC
length. -/
theorem tls_get_overhead_accounting :
    versionHeader GVersion.TLS1_0 = 5 ∧
    versionHeader GVersion.DTLS1_0 = 13 ∧
    tls_get_overhead GVersion.TLS1_0 GCipher.AES_128_CBC GMac.SHA1 = 57 ∧
    tls_get_overhead GVersion.DTLS1_0 GCipher.AES_128_CBC GMac.SHA1 = 65 ∧
    (∀ v, tls_get_overhead v GCipher.AES_128_GCM GMac.AEAD = versionHeader v + 8 + 16) ∧
    (∀ v, tls_get_overhead v GCipher.AES_256_GCM GMac.AEAD = versionHeader v + 8 + 16) :=
  ⟨rfl, rfl, by decide, by decide,
   fun v => by cases v <;> decide, fun v => by cases v <;> decide⟩

/-- Claim C7: on the primary handshake (non-DTLS) with the engine's
verification call succeeding, a fully valid status (0) marks the
session authenticated and returns 0; an invalid status with the
compatibility flag off returns the certificate-error code with the
session unauthenticated; an invalid status with the compatibility flag
on leaves the session unauthenticated, returns 0 so the handshake
proceeds, and (whenever the failure reason decodes) logs it. -/
theorem verify_certificate_cb_gate (prior : Bool) (env : VerifyEnv)
    (hret : 0 ≤ env.verifyRet) :
    (env.status = 0 →
        verify_certificate_cb false prior env = ⟨true, 0, false⟩) ∧
    (env.status ≠ 0 → env.compat = false →
        (verify_certificate_cb false prior env).cert_auth_ok = false ∧
        (verify_certificate_cb false prior env).ret = GNUTLS_E_CERTIFICATE_ERROR) ∧
    (env.status ≠ 0 → env.compat = true →
        (verify_certificate_cb false prior env).cert_auth_ok = false ∧
        (verify_certificate_cb false prior env).ret = 0 ∧
        (0 ≤ env.printRet →
          (verify_certificate_cb false prior env).loggedReason = true)) := by
  have hnlt : ¬ env.verifyRet < 0 := not_lt.2 hret
  refine ⟨?_, ?_, ?_⟩
  · intro h0
    simp [verify_certificate_cb, hnlt, h0]
  · intro hs hcomp
    simp only [verify_certificate_cb, if_neg hnlt, if_pos hs, Bool.false_eq_true,
      if_false, hcomp]
    split_ifs <;> exact ⟨rfl, rfl⟩
  · intro hs hcomp
    simp only [verify_certificate_cb, if_neg hnlt, if_pos hs, Bool.false_eq_true,
      if_false, hcomp, if_true]
    by_cases hp : env.printRet < 0
    · rw [if_pos hp]
      exact ⟨rfl, rfl, fun hge => absurd hp (not_lt.2 hge)⟩
    · rw [if_neg hp]
      exact ⟨rfl, rfl, fun _ => rfl⟩

/-- Witness for C7: invalid status 5, compatibility on, decode
succeeding — the handshake proceeds unauthenticated and the reason is
logged. -/
theorem verify_certificate_cb_gate_witness :
    (verify_certificate_cb false false ⟨0, 5, 0, true⟩).cert_auth_ok = false ∧
    (verify_certificate_cb false false ⟨0, 5, 0, true⟩).ret = 0 ∧
    (verify_certificate_cb false false ⟨0, 5, 0, true⟩).loggedReason = true := by
  have h := (verify_certificate_cb_gate false ⟨0, 5, 0, true⟩ (by decide)).2.2
    (by decide) rfl
  exact ⟨h.1, h.2.1, h.2.2 (by decide)⟩

/-- Claim C8: a delegation request with key index `I < 256`, operation
tag `T` and operand bytes `B` puts exactly the 2-byte header followed
by `B` on the custodian channel, with no length prefix on the wire;
the sign operation uses tag ASCII 83, so signing `B` with index `I`
writes `I :: 83 :: B`. -/
theorem key_cb_sign_wire (env : DelegEnv) (idx : Nat) (raw : List Nat)
    (hidx : idx < 256) (hs : env.socket_ok = true) (hc : env.connect_ok = true)
    (hw : env.writev_ok = true) :
    (key_cb_sign_func env idx raw).wire = some (idx :: 83 :: raw) := by
  unfold key_cb_sign_func key_cb_common_func
  rw [if_neg (by simp [hs]), if_neg (by simp [hc]), if_neg (by simp [hw])]
  have hmod : idx % 256 = idx := Nat.mod_eq_of_lt hidx
  split_ifs <;> simp [hmod]

/-- Witness for C8: index 1, operand `[9, 10]` — the wire carries
`[1, 83, 9, 10]`. -/
theorem key_cb_sign_wire_witness :
    (key_cb_sign_func ⟨true, true, true, 2, 5, true, 5⟩ 1 [9, 10]).wire =
      some [1, 83, 9, 10] :=
  key_cb_sign_wire ⟨true, true, true, 2, 5, true, 5⟩ 1 [9, 10]
    (by decide) rfl rfl rfl

/-- Claim C10: `tls_has_session_cert` returns 1 when the session's
certificate-authentication flag is set; otherwise with the
compatibility flag off it returns 0 without consulting the engine, and
with the compatibility flag on it consults the engine and returns 1
exactly when the peer presented any certificate. -/
theorem tls_has_session_cert_correct (ws : WorkerSt) :
    (ws.cert_auth_ok = true → tls_has_session_cert ws = (1, false)) ∧
    (ws.cert_auth_ok = false → ws.cisco_client_compat = false →
        tls_has_session_cert ws = (0, false)) ∧
    (ws.cert_auth_ok = false → ws.cisco_client_compat = true →
        tls_has_session_cert ws =
          ((if ws.peer_certs_present then 1 else 0), true)) := by
  rcases ws with ⟨a, b, c⟩
  cases a <;> cases b <;> cases c <;> decide

/-- Witness for C10: flag clear, compatibility on, peer certificate
present — returns 1 after consulting the engine. -/
theorem tls_has_session_cert_correct_witness :
    tls_has_session_cert ⟨false, true, true⟩ = (1, true) :=
  (tls_has_session_cert_correct ⟨false, true, true⟩).2.2 rfl rfl
